import Mathlib

set_option linter.unusedVariables false
set_option linter.unnecessarySeqFocus false

/-!
Verification of `snapshot-compare.py` (linux-server-reboot-management).

The file shallowly embeds the comparison / severity-classification core of the
snapshot comparison tool: each Python comparator becomes a Lean function over a
typed document model (`Doc`), where every optional JSON field is an `Option`
and each `dict.get(key, default)` becomes `Option.getD`.  Python sets built
from lists are modelled as deduplicated lists (`pySet`), `sorted` as a string
insertion sort (`sortStr`), and Python dicts built by comprehension as
association lists with replace-on-duplicate insertion (`insertDict`).
Console printing is side-effect only in the source and is not modelled; the
`changes` lists reproduce the appended messages (Python `repr` of sets inside
two network messages is abbreviated, no theorem depends on it).
-/

/-- Python `f"{x}"` applied to an optional string: `None` prints as "None". -/
def pyOptStr : Option String → String
  | none => "None"
  | some s => s

/-- Truthiness of an optional boolean field (`dict.get(k)` used in `if`). -/
def obool (o : Option Bool) : Bool :=
  o.getD false

/-- Python `set(l)`: the distinct elements of `l`, first occurrence kept. -/
def pySet (l : List String) : List String :=
  l.dedup

/-- Python set difference `set(a) - set(b)` (membership in `b` as a list). -/
def pySetDiff (a b : List String) : List String :=
  a.dedup.filter (fun x => decide (x ∉ b))

/-- Insert a string into a (sorted) list, keeping lexicographic order. -/
def insertStr (s : String) : List String → List String
  | [] => [s]
  | t :: ts => if s < t then s :: t :: ts else t :: insertStr s ts

/-- Python `sorted` on a list of strings (insertion sort, code-point order). -/
def sortStr (l : List String) : List String :=
  l.foldr insertStr []

/-- Python set equality test for two lists viewed as sets. -/
def sameSet (a b : List (Option String)) : Bool :=
  a.all (fun x => decide (x ∈ b)) && b.all (fun x => decide (x ∈ a))

/-- Lookup in an association list (Python `dict[k]` / `dict.get(k)`). -/
def alookup : List (String × α) → String → Option α
  | [], _ => none
  | (k, v) :: rest, key => if k = key then some v else alookup rest key

/-- Python `dict[k] = v`: replace the value if the key exists, else append. -/
def insertDict : List (String × α) → String → α → List (String × α)
  | [], k, v => [(k, v)]
  | (k', v') :: rest, k, v =>
      if k' = k then (k', v) :: rest else (k', v') :: insertDict rest k v

/-- The keys of an association list, in order. -/
def dictKeys (l : List (String × α)) : List String :=
  l.map Prod.fst

/-- Keys are pairwise distinct (holds for dicts parsed from JSON objects). -/
def keysNodup (l : List (String × α)) : Prop :=
  (dictKeys l).Nodup

instance (l : List (String × α)) : Decidable (keysNodup l) := by
  unfold keysNodup; infer_instance

/-- Python dict comprehension `{key(x): val(x) for x in xs if key(x)}`. -/
def buildDict (f : α → Option (String × β)) (xs : List α) : List (String × β) :=
  xs.foldl
    (fun acc x =>
      match f x with
      | some (k, v) => insertDict acc k v
      | none => acc) []

/-- Python substring test `needle in hay` (for non-empty needles). -/
def strHasSub (hay needle : String) : Bool :=
  (hay.splitOn needle).length ≥ 2

/-- A loosely typed scalar: the boot-duration field may be a number or a
string in the snapshot JSON, and the code applies `int(...)` to it. -/
inductive PyVal where
  | int (n : Int)
  | str (s : String)
deriving DecidableEq

/-- Python `int(v)` for the scalars above; `none` models `ValueError`. -/
def pyToInt : PyVal → Option Int
  | .int n => some n
  | .str s => s.toInt?

/-- `system` section: fields read by `compare_system`. -/
structure SystemSec where
  kernel : Option String := none
  disk_usage_percent : Option Int := none
  cpu_temp : Option Int := none
deriving DecidableEq, Inhabited

/-- `custom` section: fallback CPU temperature read by `compare_system`. -/
structure CustomSec where
  cpu_temp_celsius : Option Int := none
deriving DecidableEq, Inhabited

/-- `services` section read by `compare_services`. -/
structure ServicesSec where
  running : Option (List String) := none
  failed : Option (List String) := none
deriving DecidableEq, Inhabited

/-- One entry of `docker.containers`. -/
structure Container where
  name : Option String := none
  state : Option String := none
deriving DecidableEq, Inhabited

/-- `docker` section read by `compare_docker`. -/
structure DockerSec where
  containers : Option (List Container) := none
deriving DecidableEq, Inhabited

/-- One entry of a network interface's `addr_info` array. -/
structure AddrInfo where
  family : Option String := none
  local_addr : Option String := none
deriving DecidableEq, Inhabited

/-- One entry of `network.interfaces` (from `ip -j`). -/
structure Iface where
  ifname : Option String := none
  operstate : Option String := none
  addr_info : Option (List AddrInfo) := none
  address : Option String := none
deriving DecidableEq, Inhabited

/-- `network` section read by `compare_network_interfaces`. -/
structure NetworkSec where
  interfaces : Option (List Iface) := none
  default_gateway : Option String := none
deriving DecidableEq, Inhabited

/-- `route_guardian` section read by `compare_route_guardian`. -/
structure RouteGuardianSec where
  service_active : Option Bool := none
  active_gateway : Option String := none
  dsl_route_present : Option Bool := none
  lte_route_present : Option Bool := none
deriving DecidableEq, Inhabited

/-- One fleet device record in `pi_zero_fleet`. -/
structure FleetDevice where
  reachable : Option Bool := none
  ip : Option String := none
deriving DecidableEq, Inhabited

/-- `pi_zero_fleet` section: the code reads exactly these five devices. -/
structure FleetSec where
  watchdog : Option FleetDevice := none
  security : Option FleetDevice := none
  dns_gateway : Option FleetDevice := none
  gpio_bedroom : Option FleetDevice := none
  gpio_bathroom : Option FleetDevice := none
deriving DecidableEq, Inhabited

/-- One entry of `networkmanager.active_connections`. -/
structure NMConn where
  name : Option String := none
  state : Option String := none
deriving DecidableEq, Inhabited

/-- `networkmanager` section read by `compare_networkmanager`. -/
structure NMSec where
  active_connections : Option (List NMConn) := none
deriving DecidableEq, Inhabited

/-- `wireguard` section read by `compare_wireguard`. -/
structure WireguardSec where
  interface_active : Option Bool := none
  peers_count : Option Int := none
deriving DecidableEq, Inhabited

/-- `hardware.throttle_events` record. -/
structure ThrottleEvents where
  under_voltage : Option Bool := none
  currently_throttled : Option Bool := none
  soft_temp_limit : Option Bool := none
deriving DecidableEq, Inhabited

/-- `hardware` section read by `compare_hardware_throttling`. -/
structure HardwareSec where
  throttle_events : Option ThrottleEvents := none
deriving DecidableEq, Inhabited

/-- One value of the `critical_services` map. -/
structure CritService where
  active : Option String := none
  restarts : Option Int := none
deriving DecidableEq, Inhabited

/-- `memory_detail` section read by `compare_memory_detail`. -/
structure MemorySec where
  swap_usage_percent : Option Int := none
deriving DecidableEq, Inhabited

/-- `boot_info` section read by `validate_boot_info`. -/
structure BootInfo where
  available : Option Bool := none
  phases_completed : Option Int := none
  boot_duration_seconds : Option PyVal := none
deriving DecidableEq, Inhabited

/-- A snapshot document: every top-level key the comparators read, each
optional (`dict.get` returns a per-field default when the key is absent). -/
structure Doc where
  timestamp : Option String := none
  type : Option String := none
  system : Option SystemSec := none
  custom : Option CustomSec := none
  services : Option ServicesSec := none
  docker : Option DockerSec := none
  network : Option NetworkSec := none
  usb_devices : Option (List String) := none
  route_guardian : Option RouteGuardianSec := none
  pi_zero_fleet : Option FleetSec := none
  networkmanager : Option NMSec := none
  wireguard : Option WireguardSec := none
  hardware : Option HardwareSec := none
  critical_services : Option (List (String × CritService)) := none
  config_checksums : Option (List (String × String)) := none
  memory_detail : Option MemorySec := none
  cron_jobs : Option (List String) := none
  boot_info : Option BootInfo := none
deriving DecidableEq, Inhabited

/-- Result of a single comparison section (`ComparisonResult` dataclass);
the Python field `section` is a Lean keyword, hence `sectionName`. -/
structure ComparisonResult where
  sectionName : String
  problems : Nat
  warnings : Nat
  changes : List String
deriving DecidableEq, Inhabited

/-- The post snapshot's disk usage with default 0 (`compare_system` line 111). -/
def sysDisk (d : Doc) : Int :=
  (d.system.getD default).disk_usage_percent.getD 0

/-- The effective CPU temperature: `system.cpu_temp`, falling back to
`custom.cpu_temp_celsius` when the primary value is 0 (lines 125-128). -/
def effTemp (d : Doc) : Int :=
  let t := (d.system.getD default).cpu_temp.getD 0
  if t = 0 then (d.custom.getD default).cpu_temp_celsius.getD 0 else t

/-- `compare_system`: kernel change informational; post disk > 90 problem,
else post disk > pre disk + 10 warning; effective CPU temp > 80 warning. -/
def compare_system (pre post : Doc) : ComparisonResult :=
  let pre_sys := pre.system.getD default
  let post_sys := post.system.getD default
  let kernelChanges :=
    if pre_sys.kernel ≠ post_sys.kernel then
      ["Kernel changed: " ++ pyOptStr pre_sys.kernel ++ " → " ++ pyOptStr post_sys.kernel]
    else []
  let pre_disk := pre_sys.disk_usage_percent.getD 0
  let post_disk := post_sys.disk_usage_percent.getD 0
  let diskRes : Nat × Nat × List String :=
    if post_disk > 90 then
      (1, 0, ["Disk space critical: " ++ toString post_disk ++ "% used"])
    else if post_disk > pre_disk + 10 then
      (0, 1, ["Disk usage increased significantly: " ++ toString pre_disk ++ "% → "
                ++ toString post_disk ++ "%"])
    else (0, 0, [])
  let post_temp := effTemp post
  let tempRes : Nat × List String :=
    if post_temp > 80 then
      (1, ["CPU temperature high: " ++ toString post_temp ++ "°C"])
    else (0, [])
  ⟨"system", diskRes.1, diskRes.2.1 + tempRes.1,
    kernelChanges ++ diskRes.2.2 ++ tempRes.2⟩

/-- `compare_services`: set differences of running names (stopped → one
problem each, started → informational) and of failed names with the "●"
marker discarded (newly failed → one problem each); never warns. -/
def compare_services (pre post : Doc) : ComparisonResult :=
  let pre_running := pySet ((pre.services.getD default).running.getD [])
  let post_running := pySet ((post.services.getD default).running.getD [])
  let pre_failed := (pySet ((pre.services.getD default).failed.getD [])).filter
    (fun s => decide (s ≠ "●"))
  let post_failed := (pySet ((post.services.getD default).failed.getD [])).filter
    (fun s => decide (s ≠ "●"))
  let stopped := pySetDiff pre_running post_running
  let started := pySetDiff post_running pre_running
  let new_failures := pySetDiff post_failed pre_failed
  let stoppedChanges := (sortStr stopped).map (fun s => "stopped: " ++ s)
  let startedChanges := (sortStr started).map (fun s => "started: " ++ s)
  let failedChanges := (sortStr new_failures).map (fun s => "failed: " ++ s)
  ⟨"services", stopped.length + new_failures.length, 0,
    stoppedChanges ++ startedChanges ++ failedChanges⟩

/-- The dict `{c["name"]: c.get("state") for c in containers if c.get("name")}`. -/
def containersDict (cs : List Container) : List (String × Option String) :=
  buildDict
    (fun c =>
      match c.name with
      | some n => if n = "" then none else some (n, c.state)
      | none => none) cs

/-- The loop over `pre_names.items()` in `compare_docker`: a container
missing after reboot, or leaving the "running" state, is one problem each. -/
def dockerPreLoop (postNames : List (String × Option String)) :
    List (String × Option String) → Nat × List String
  | [] => (0, [])
  | (name, st) :: rest =>
    let tail := dockerPreLoop postNames rest
    match alookup postNames name with
    | none => (tail.1 + 1, (name ++ ": Missing after reboot") :: tail.2)
    | some postSt =>
        if st = some "running" ∧ postSt ≠ some "running" then
          (tail.1 + 1, (name ++ ": Was running, now " ++ pyOptStr postSt) :: tail.2)
        else tail

/-- `compare_docker`: skipped when neither snapshot lists containers;
otherwise missing / no-longer-running containers are problems and new
containers informational. -/
def compare_docker (pre post : Doc) : ComparisonResult :=
  let pre_containers := (pre.docker.getD default).containers.getD []
  let post_containers := (post.docker.getD default).containers.getD []
  if pre_containers.isEmpty ∧ post_containers.isEmpty then
    ⟨"docker", 0, 0, []⟩
  else
    let pre_names := containersDict pre_containers
    let post_names := containersDict post_containers
    let preRes := dockerPreLoop post_names pre_names
    let new_containers := pySetDiff (dictKeys post_names) (dictKeys pre_names)
    let newChanges := (sortStr new_containers).map (fun n => "new: " ++ n)
    ⟨"docker", preRes.1, 0, preRes.2 ++ newChanges⟩

/-- The dict of interfaces keyed by `ifname` (empty names excluded). -/
def ifaceDict (l : List Iface) : List (String × Iface) :=
  buildDict
    (fun i =>
      match i.ifname with
      | some n => if n = "" then none else some (n, i)
      | none => none) l

/-- The set of IPv4 addresses of one interface: `addr.get("local")` for
every `addr_info` entry whose family is "inet". -/
def inetIps (i : Iface) : List (Option String) :=
  (((i.addr_info.getD []).filter (fun a => decide (a.family = some "inet"))).map
    (fun a => a.local_addr)).dedup

/-- The loop over `pre_ifaces.items()` in `compare_network_interfaces`:
missing interface → problem; operstate change → warning; IPv4 set change →
warning; MAC change → problem. -/
def ifaceLoop (postIf : List (String × Iface)) :
    List (String × Iface) → Nat × Nat × List String
  | [] => (0, 0, [])
  | (ifname, preD) :: rest =>
    let tail := ifaceLoop postIf rest
    match alookup postIf ifname with
    | none =>
        (tail.1 + 1, tail.2.1, (ifname ++ ": Interface missing after reboot") :: tail.2.2)
    | some postD =>
        let pre_state := preD.operstate.getD "UNKNOWN"
        let post_state := postD.operstate.getD "UNKNOWN"
        let stateRes : Nat × List String :=
          if pre_state ≠ post_state then
            (1, [ifname ++ ": State changed " ++ pre_state ++ " → " ++ post_state])
          else (0, [])
        let ipRes : Nat × List String :=
          if !sameSet (inetIps preD) (inetIps postD) then
            (1, [ifname ++ ": IP changed"])
          else (0, [])
        let pre_mac := preD.address.getD ""
        let post_mac := postD.address.getD ""
        let macRes : Nat × List String :=
          if pre_mac ≠ post_mac then
            (1, [ifname ++ ": MAC changed " ++ pre_mac ++ " → " ++ post_mac])
          else (0, [])
        (tail.1 + macRes.1, tail.2.1 + stateRes.1 + ipRes.1,
          stateRes.2 ++ ipRes.2 ++ macRes.2 ++ tail.2.2)

/-- `compare_network_interfaces`: per-interface checks plus the default
gateway comparison (difference → warning). -/
def compare_network_interfaces (pre post : Doc) : ComparisonResult :=
  let pre_ifaces := ifaceDict ((pre.network.getD default).interfaces.getD [])
  let post_ifaces := ifaceDict ((post.network.getD default).interfaces.getD [])
  let loopRes := ifaceLoop post_ifaces pre_ifaces
  let pre_gateway := (pre.network.getD default).default_gateway.getD "none"
  let post_gateway := (post.network.getD default).default_gateway.getD "none"
  let gwRes : Nat × List String :=
    if pre_gateway ≠ post_gateway then (1, ["Default route changed"]) else (0, [])
  ⟨"network", loopRes.1, loopRes.2.1 + gwRes.1, loopRes.2.2 ++ gwRes.2⟩

/-- `compare_usb_devices`: removed devices naming an RTL8153/RTL8156
chipset are problems, other removed devices warnings, added informational. -/
def compare_usb_devices (pre post : Doc) : ComparisonResult :=
  let pre_devices := pySet (pre.usb_devices.getD [])
  let post_devices := pySet (post.usb_devices.getD [])
  let removed := pySetDiff pre_devices post_devices
  let added := pySetDiff post_devices pre_devices
  let critical_missing :=
    removed.filter (fun d => strHasSub d "RTL8153" || strHasSub d "RTL8156")
  let non_critical_removed :=
    removed.filter (fun d => decide (d ∉ critical_missing))
  let critChanges := critical_missing.map (fun d => "missing: " ++ d)
  let removedChanges := (sortStr non_critical_removed).map (fun d => "removed: " ++ d)
  let addedChanges := (sortStr added).map (fun d => "added: " ++ d)
  ⟨"usb_devices", critical_missing.length, non_critical_removed.length,
    critChanges ++ removedChanges ++ addedChanges⟩

/-- Python truthiness of the `route_guardian` dict (`{}` and absent falsy). -/
def rgTruthy (o : Option RouteGuardianSec) : Bool :=
  match o with
  | none => false
  | some rg => decide (rg ≠ default)

/-- `compare_route_guardian`: skip if absent from both; inactive service →
problem, gateway change → warning, DSL route lost → problem, LTE route lost
→ warning. -/
def compare_route_guardian (pre post : Doc) : ComparisonResult :=
  let pre_rg := pre.route_guardian
  let post_rg := post.route_guardian
  if !rgTruthy pre_rg && !rgTruthy post_rg then
    ⟨"route_guardian", 0, 0, []⟩
  else
    let preS := pre_rg.getD default
    let postS := post_rg.getD default
    let svcRes : Nat × List String :=
      if obool preS.service_active && !obool postS.service_active then
        (1, ["Route Guardian service not active after reboot"])
      else (0, [])
    let pre_gw := preS.active_gateway.getD "unknown"
    let post_gw := postS.active_gateway.getD "unknown"
    let gwRes : Nat × List String :=
      if pre_gw ≠ post_gw then
        (1, ["Active gateway changed: " ++ pre_gw ++ " → " ++ post_gw])
      else (0, [])
    let dslRes : Nat × List String :=
      if obool preS.dsl_route_present && !obool postS.dsl_route_present then
        (1, ["DSL route missing after reboot"])
      else (0, [])
    let lteRes : Nat × List String :=
      if obool preS.lte_route_present && !obool postS.lte_route_present then
        (1, ["LTE route missing after reboot"])
      else (0, [])
    ⟨"route_guardian", svcRes.1 + dslRes.1, gwRes.1 + lteRes.1,
      svcRes.2 ++ gwRes.2 ++ dslRes.2 ++ lteRes.2⟩

/-- `pre_fleet.get(device, {})` for the five fixed device names. -/
def fleetGet (f : FleetSec) (device : String) : FleetDevice :=
  if device = "watchdog" then f.watchdog.getD default
  else if device = "security" then f.security.getD default
  else if device = "dns_gateway" then f.dns_gateway.getD default
  else if device = "gpio_bedroom" then f.gpio_bedroom.getD default
  else if device = "gpio_bathroom" then f.gpio_bathroom.getD default
  else default

/-- The loop over the fixed device list in `compare_pi_zero_fleet`:
reachable → unreachable is a warning, unreachable → reachable informational. -/
def fleetLoop (preF postF : FleetSec) : List String → Nat × List String
  | [] => (0, [])
  | device :: rest =>
    let tail := fleetLoop preF postF rest
    let preD := fleetGet preF device
    let postD := fleetGet postF device
    let pre_reachable := obool preD.reachable
    let post_reachable := obool postD.reachable
    if pre_reachable && !post_reachable then
      (tail.1 + 1,
        (device ++ " (" ++ (postD.ip.getD "unknown") ++ "): Unreachable after reboot")
          :: tail.2)
    else if !pre_reachable && post_reachable then
      (tail.1,
        (device ++ " (" ++ (postD.ip.getD "unknown") ++ "): Now reachable") :: tail.2)
    else tail

/-- Python truthiness of the `pi_zero_fleet` dict. -/
def fleetTruthy (o : Option FleetSec) : Bool :=
  match o with
  | none => false
  | some f => decide (f ≠ default)

/-- `compare_pi_zero_fleet`: skip if absent from both; per-device
reachability transitions as in `fleetLoop`; never raises problems. -/
def compare_pi_zero_fleet (pre post : Doc) : ComparisonResult :=
  if !fleetTruthy pre.pi_zero_fleet && !fleetTruthy post.pi_zero_fleet then
    ⟨"pi_zero_fleet", 0, 0, []⟩
  else
    let res := fleetLoop (pre.pi_zero_fleet.getD default) (post.pi_zero_fleet.getD default)
      ["watchdog", "security", "dns_gateway", "gpio_bedroom", "gpio_bathroom"]
    ⟨"pi_zero_fleet", 0, res.1, res.2⟩

/-- The dict `{conn.get("name"): conn.get("state") for conn in ... if conn.get("name")}`. -/
def nmDict (l : List NMConn) : List (String × Option String) :=
  buildDict
    (fun c =>
      match c.name with
      | some n => if n = "" then none else some (n, c.state)
      | none => none) l

/-- `compare_networkmanager`: deactivated connections → warning each,
newly activated → informational; never raises problems. -/
def compare_networkmanager (pre post : Doc) : ComparisonResult :=
  let pre_active := nmDict ((pre.networkmanager.getD default).active_connections.getD [])
  let post_active := nmDict ((post.networkmanager.getD default).active_connections.getD [])
  let deactivated := pySetDiff (dictKeys pre_active) (dictKeys post_active)
  let activated := pySetDiff (dictKeys post_active) (dictKeys pre_active)
  let deactChanges := (sortStr deactivated).map (fun c => "deactivated: " ++ c)
  let actChanges := (sortStr activated).map (fun c => "activated: " ++ c)
  ⟨"networkmanager", 0, deactivated.length, deactChanges ++ actChanges⟩

/-- `compare_wireguard`: skip if the interface is inactive in both;
active → inactive is a problem, peer-count change a warning. -/
def compare_wireguard (pre post : Doc) : ComparisonResult :=
  let pre_wg := pre.wireguard.getD default
  let post_wg := post.wireguard.getD default
  if !obool pre_wg.interface_active && !obool post_wg.interface_active then
    ⟨"wireguard", 0, 0, []⟩
  else
    let activeRes : Nat × List String :=
      if obool pre_wg.interface_active && !obool post_wg.interface_active then
        (1, ["WireGuard interface not active after reboot"])
      else (0, [])
    let pre_peers := pre_wg.peers_count.getD 0
    let post_peers := post_wg.peers_count.getD 0
    let peerRes : Nat × List String :=
      if pre_peers ≠ post_peers then
        (1, ["Peer count changed: " ++ toString pre_peers ++ " → " ++ toString post_peers])
      else (0, [])
    ⟨"wireguard", activeRes.1, peerRes.1, activeRes.2 ++ peerRes.2⟩

/-- Python truthiness of a `throttle_events` dict. -/
def teTruthy (o : Option ThrottleEvents) : Bool :=
  match o with
  | none => false
  | some te => decide (te ≠ default)

/-- `compare_hardware_throttling`: skip if neither snapshot records
throttle events; each post-snapshot flag raises one warning. -/
def compare_hardware_throttling (pre post : Doc) : ComparisonResult :=
  let pre_hw := pre.hardware.getD default
  let post_hw := post.hardware.getD default
  if !teTruthy pre_hw.throttle_events && !teTruthy post_hw.throttle_events then
    ⟨"hardware_throttling", 0, 0, []⟩
  else
    let post_throttle := post_hw.throttle_events.getD default
    let uvRes : Nat × List String :=
      if obool post_throttle.under_voltage then (1, ["Under-voltage detected"]) else (0, [])
    let ctRes : Nat × List String :=
      if obool post_throttle.currently_throttled then (1, ["CPU throttling active"]) else (0, [])
    let stRes : Nat × List String :=
      if obool post_throttle.soft_temp_limit then
        (1, ["Soft temperature limit reached"])
      else (0, [])
    ⟨"hardware_throttling", 0, uvRes.1 + ctRes.1 + stRes.1, uvRes.2 ++ ctRes.2 ++ stRes.2⟩

/-- The loop over `post_crit.items()` in `compare_critical_services`:
an entry whose active-state is not "active" is a problem; a restart counter
that grew from pre to post is a warning with the delta in the message. -/
def critLoop (preCrit : List (String × CritService)) :
    List (String × CritService) → Nat × Nat × List String
  | [] => (0, 0, [])
  | (svc, postD) :: rest =>
    let tail := critLoop preCrit rest
    let activeRes : Nat × List String :=
      if postD.active ≠ some "active" then
        (1, [svc ++ ": Not active (state: " ++ pyOptStr postD.active ++ ")"])
      else (0, [])
    let pre_restarts := ((alookup preCrit svc).getD default).restarts.getD 0
    let post_restarts := postD.restarts.getD 0
    let restartRes : Nat × List String :=
      if post_restarts > pre_restarts then
        (1, [svc ++ ": Restarted " ++ toString (post_restarts - pre_restarts)
              ++ " times during reboot"])
      else (0, [])
    (tail.1 + activeRes.1, tail.2.1 + restartRes.1, activeRes.2 ++ restartRes.2 ++ tail.2.2)

/-- `compare_critical_services`: skip if the map is absent/empty in both
snapshots, else run `critLoop` over the post snapshot's entries. -/
def compare_critical_services (pre post : Doc) : ComparisonResult :=
  let pre_crit := pre.critical_services.getD []
  let post_crit := post.critical_services.getD []
  if pre_crit.isEmpty ∧ post_crit.isEmpty then
    ⟨"critical_services", 0, 0, []⟩
  else
    let res := critLoop pre_crit post_crit
    ⟨"critical_services", res.1, res.2.1, res.2.2⟩

/-- The loop over `pre_checksums.items()`: a post value different from the
pre value (absent post entries read as "missing") is a warning. -/
def configLoop (postCk : List (String × String)) :
    List (String × String) → Nat × List String
  | [] => (0, [])
  | (file, preH) :: rest =>
    let tail := configLoop postCk rest
    let postH := (alookup postCk file).getD "missing"
    if preH ≠ postH then
      (tail.1 + 1, (file ++ ": Checksum changed") :: tail.2)
    else tail

/-- `compare_config_checksums`: one warning per changed or missing checksum. -/
def compare_config_checksums (pre post : Doc) : ComparisonResult :=
  let res := configLoop (post.config_checksums.getD []) (pre.config_checksums.getD [])
  ⟨"config_checksums", 0, res.1, res.2⟩

/-- The post snapshot's swap usage with default 0. -/
def swapOf (d : Doc) : Int :=
  (d.memory_detail.getD default).swap_usage_percent.getD 0

/-- `compare_memory_detail`: post swap usage > 50 is one warning; smaller
non-zero values are only printed, never recorded as changes. -/
def compare_memory_detail (pre post : Doc) : ComparisonResult :=
  let post_swap_usage := swapOf post
  if post_swap_usage > 50 then
    ⟨"memory_detail", 0, 1, ["Swap usage high: " ++ toString post_swap_usage ++ "%"]⟩
  else
    ⟨"memory_detail", 0, 0, []⟩

/-- `compare_cron_jobs`: removed jobs → warning each, added informational. -/
def compare_cron_jobs (pre post : Doc) : ComparisonResult :=
  let pre_cron := pySet (pre.cron_jobs.getD [])
  let post_cron := pySet (post.cron_jobs.getD [])
  let removed := pySetDiff pre_cron post_cron
  let added := pySetDiff post_cron pre_cron
  let removedChanges := (sortStr removed).map (fun j => "removed: " ++ j)
  let addedChanges := (sortStr added).map (fun j => "added: " ++ j)
  ⟨"cron_jobs", 0, removed.length, removedChanges ++ addedChanges⟩

/-- The duration check of `validate_boot_info`: the field defaults to the
string "unknown"; a non-"unknown" value is passed to `int(...)`, a
`ValueError` is swallowed, and a parsed value above 300 seconds is one
warning with its message. -/
def bootDurRes (bi : BootInfo) : Nat × List String :=
  let duration := bi.boot_duration_seconds.getD (.str "unknown")
  if duration = .str "unknown" then (0, [])
  else
    match pyToInt duration with
    | some n =>
        if n > 300 then
          (1, ["Boot duration long: " ++ toString n ++ "s (>"
                ++ toString (n / 60) ++ "m)"])
        else (0, [])
    | none => (0, [])

/-- Does the boot-duration check fire? -/
def bootDurWarn (bi : BootInfo) : Bool :=
  let duration := bi.boot_duration_seconds.getD (.str "unknown")
  if duration = .str "unknown" then false
  else
    match pyToInt duration with
    | some n => decide (n > 300)
    | none => false

/-- `validate_boot_info`: zero result when `boot_info` is absent or marks
itself unavailable; else fewer than 13 completed phases is one problem and
a numeric duration above 300 seconds one warning. -/
def validate_boot_info (post : Doc) : ComparisonResult :=
  match post.boot_info with
  | none => ⟨"boot_info", 0, 0, []⟩
  | some bi =>
    if !(bi.available.getD true) then ⟨"boot_info", 0, 0, []⟩
    else
      let phases := bi.phases_completed.getD 0
      let phaseRes : Nat × List String :=
        if phases < 13 then
          (1, ["Incomplete boot: Only " ++ toString phases ++ "/13 phases completed"])
        else (0, [])
      let durRes := bootDurRes bi
      ⟨"boot_info", phaseRes.1, durRes.1, phaseRes.2 ++ durRes.2⟩

/-- The ordered comparator pipeline run by `main`: the fourteen pair
comparators, plus boot validation when the post document's `type` is
"post-reboot". -/
def runComparisons (pre post : Doc) : List ComparisonResult :=
  [compare_system pre post,
   compare_services pre post,
   compare_docker pre post,
   compare_network_interfaces pre post,
   compare_usb_devices pre post,
   compare_route_guardian pre post,
   compare_pi_zero_fleet pre post,
   compare_networkmanager pre post,
   compare_wireguard pre post,
   compare_hardware_throttling pre post,
   compare_critical_services pre post,
   compare_config_checksums pre post,
   compare_memory_detail pre post,
   compare_cron_jobs pre post]
  ++ (if post.type = some "post-reboot" then [validate_boot_info post] else [])

/-- `total_problems` over a result list. -/
def totalProblems (results : List ComparisonResult) : Nat :=
  (results.map (fun r => r.problems)).sum

/-- `total_warnings` over a result list. -/
def totalWarnings (results : List ComparisonResult) : Nat :=
  (results.map (fun r => r.warnings)).sum

/-- Python truthiness of a loaded snapshot (`not pre`): an empty dict is
falsy, so a document with none of the modelled keys counts as empty. -/
def docEmptyPy (d : Doc) : Bool :=
  decide (d = default)

/-- The tail of `main` after the two `load_snapshot` calls: a missing or
falsy document aborts with status 1 before any comparator runs; otherwise
all comparators run and the status is 0 exactly when no problems exist.
The second component records the results that were produced. -/
def mainModel (preLoad postLoad : Option Doc) :
    Nat × Option (List ComparisonResult) :=
  match preLoad, postLoad with
  | some pre, some post =>
      if docEmptyPy pre || docEmptyPy post then (1, none)
      else
        let results := runComparisons pre post
        (if totalProblems results = 0 then 0 else 1, some results)
  | _, _ => (1, none)

/-- The exit status returned by `main` when snapshot discovery fails
(`--auto-latest` finds no files) or the arguments are unusable. -/
def usageErrorStatus : Nat := 2

/-- The `critical` summary bucket (`print_summary` line 989). -/
def summaryCritical (results : List ComparisonResult) : List ComparisonResult :=
  results.filter (fun r => decide (r.problems > 0))

/-- The `warnings` summary bucket (`print_summary` line 990). -/
def summaryWarning (results : List ComparisonResult) : List ComparisonResult :=
  results.filter (fun r => decide (r.warnings > 0) && decide (r.problems = 0))

/-- The `info` summary bucket (`print_summary` line 991). -/
def summaryInfo (results : List ComparisonResult) : List ComparisonResult :=
  results.filter
    (fun r => decide (r.changes.length > 0) && decide (r.problems = 0)
                && decide (r.warnings = 0))

/-- No throttle flag of the post snapshot is set (all three checks silent). -/
def teWarnFree (d : Doc) : Bool :=
  let te := ((d.hardware.getD default).throttle_events).getD default
  !obool te.under_voltage && !obool te.currently_throttled && !obool te.soft_temp_limit

/-- Every critical-service entry reports the literal active-state "active". -/
def critAllActive (d : Doc) : Bool :=
  (d.critical_services.getD []).all (fun p => p.2.active == some "active")

/-- The boot-info section of `d` raises no finding: absent, explicitly
unavailable, or 13+ phases with no duration warning. -/
def bootOk (d : Doc) : Bool :=
  match d.boot_info with
  | none => true
  | some bi =>
      bi.available == some false
        || (!decide (bi.phases_completed.getD 0 < 13) && !bootDurWarn bi)

/-- A document whose only content is a disk usage percentage. -/
def mkDiskDoc (n : Int) : Doc :=
  { system := some { disk_usage_percent := some n } }

/-- A post-reboot document with the given boot phases and duration. -/
def mkBootDoc (phases : Option Int) (dur : Option PyVal) : Doc :=
  { type := some "post-reboot",
    boot_info := some { available := some true, phases_completed := phases,
                        boot_duration_seconds := dur } }

/-- A document carrying only a fallback CPU temperature in `custom`. -/
def customTempDoc : Doc :=
  { custom := some { cpu_temp_celsius := some 90 } }

/-- A pre document whose running services are A, B, C. -/
def svcPreDoc : Doc :=
  { services := some { running := some ["A", "B", "C"] } }

/-- A post document whose running services are B, C, D. -/
def svcPostDoc : Doc :=
  { services := some { running := some ["B", "C", "D"] } }

/-- A non-empty document with no findings (timestamp only). -/
def tsDoc : Doc :=
  { timestamp := some "20260101-000000" }

/-- A post-reboot document with an empty `boot_info` object. -/
def emptyBootDoc : Doc :=
  { type := some "post-reboot", boot_info := some {} }

/-- A post document whose failed services are the marker "●" and "X". -/
def failBulletDoc : Doc :=
  { services := some { failed := some ["●", "X"] } }

theorem insertStr_length (s : String) (l : List String) :
    (insertStr s l).length = l.length + 1 := by
  induction l with
  | nil => rfl
  | cons t ts ih =>
    unfold insertStr
    split
    · rfl
    · simp [ih]

theorem sortStr_length (l : List String) : (sortStr l).length = l.length := by
  induction l with
  | nil => rfl
  | cons s ts ih =>
    show (insertStr s (sortStr ts)).length = ts.length + 1
    rw [insertStr_length, ih]

theorem pySetDiff_self (l : List String) : pySetDiff l l = [] := by
  unfold pySetDiff
  apply List.filter_eq_nil_iff.2
  intro a ha
  simp only [List.mem_dedup] at ha
  simp [ha]

theorem sameSet_refl (l : List (Option String)) : sameSet l l = true := by
  simp [sameSet, List.all_eq_true]

theorem alookup_mem_self {α : Type} (l : List (String × α)) (h : keysNodup l) :
    ∀ p ∈ l, alookup l p.1 = some p.2 := by
  induction l with
  | nil => intro p hp; cases hp
  | cons q rest ih =>
    intro p hp
    simp only [keysNodup, dictKeys, List.map_cons, List.nodup_cons] at h
    rcases List.mem_cons.1 hp with rfl | hmem
    · simp [alookup]
    · have hne : q.1 ≠ p.1 := by
        intro he
        exact h.1 (he ▸ List.mem_map_of_mem Prod.fst hmem)
      simp only [alookup, if_neg hne]
      exact ih h.2 p hmem

theorem dictKeys_insertDict {α : Type} (l : List (String × α)) (k : String) (v : α) :
    dictKeys (insertDict l k v) =
      if k ∈ dictKeys l then dictKeys l else dictKeys l ++ [k] := by
  induction l with
  | nil => simp [insertDict, dictKeys]
  | cons q rest ih =>
    by_cases hq : q.1 = k
    · simp [insertDict, hq, dictKeys]
    · simp only [insertDict, if_neg hq, dictKeys, List.map_cons]
      by_cases hmem : k ∈ dictKeys rest
      · simp [dictKeys] at hmem ih
        simp [hmem, ih, Ne.symm hq]
      · simp [dictKeys] at hmem ih
        simp [hmem, ih, Ne.symm hq]

theorem insertDict_keysNodup {α : Type} (l : List (String × α)) (k : String) (v : α)
    (h : keysNodup l) : keysNodup (insertDict l k v) := by
  unfold keysNodup
  rw [dictKeys_insertDict]
  split
  · exact h
  · next hk => simpa [List.nodup_append] using ⟨h, hk⟩

theorem buildDict_keysNodup {α β : Type} (f : α → Option (String × β)) (xs : List α) :
    keysNodup (buildDict f xs) := by
  suffices h : ∀ acc : List (String × β), keysNodup acc →
      keysNodup (xs.foldl
        (fun acc x =>
          match f x with
          | some (k, v) => insertDict acc k v
          | none => acc) acc) by
    exact h [] (by simp [keysNodup, dictKeys])
  induction xs with
  | nil => intro acc hacc; exact hacc
  | cons x rest ih =>
    intro acc hacc
    simp only [List.foldl_cons]
    apply ih
    cases hfx : f x with
    | none => simpa [hfx] using hacc
    | some kv => simpa [hfx] using insertDict_keysNodup acc kv.1 kv.2 hacc

theorem dockerPreLoop_self (d : List (String × Option String))
    (h : ∀ p ∈ d, alookup d p.1 = some p.2) :
    ∀ l, (∀ p ∈ l, p ∈ d) → dockerPreLoop d l = (0, []) := by
  intro l
  induction l with
  | nil => intro _; rfl
  | cons q rest ih =>
    intro hl
    obtain ⟨name, st⟩ := q
    have hq : alookup d name = some st := h (name, st) (hl _ (List.mem_cons_self _ _))
    have hrest := ih (fun p hp => hl p (List.mem_cons_of_mem _ hp))
    have hc : ¬(st = some "running" ∧ st ≠ some "running") := by tauto
    simp only [dockerPreLoop, hq, if_neg hc, hrest]

theorem dockerPreLoop_bound (d : List (String × Option String))
    (l : List (String × Option String)) :
    (dockerPreLoop d l).1 ≤ (dockerPreLoop d l).2.length := by
  induction l with
  | nil => simp [dockerPreLoop]
  | cons q rest ih =>
    obtain ⟨name, st⟩ := q
    simp only [dockerPreLoop]
    cases alookup d name with
    | none => simpa using Nat.add_le_add_right ih 1
    | some postSt =>
      by_cases hc : st = some "running" ∧ postSt ≠ some "running"
      · simp only [if_pos hc]
        simpa using Nat.add_le_add_right ih 1
      · simp only [if_neg hc]
        exact ih

theorem ifaceLoop_self (d : List (String × Iface))
    (h : ∀ p ∈ d, alookup d p.1 = some p.2) :
    ∀ l, (∀ p ∈ l, p ∈ d) → ifaceLoop d l = (0, 0, []) := by
  intro l
  induction l with
  | nil => intro _; rfl
  | cons q rest ih =>
    intro hl
    obtain ⟨ifname, preD⟩ := q
    have hq : alookup d ifname = some preD := h (ifname, preD) (hl _ (List.mem_cons_self _ _))
    have hrest := ih (fun p hp => hl p (List.mem_cons_of_mem _ hp))
    simp only [ifaceLoop, hq, hrest, sameSet_refl]
    simp

theorem ifaceLoop_bound (d : List (String × Iface)) (l : List (String × Iface)) :
    (ifaceLoop d l).1 + (ifaceLoop d l).2.1 ≤ (ifaceLoop d l).2.2.length := by
  induction l with
  | nil => simp [ifaceLoop]
  | cons q rest ih =>
    obtain ⟨ifname, preD⟩ := q
    simp only [ifaceLoop]
    cases alookup d ifname with
    | none =>
      simp only [List.length_cons]
      omega
    | some postD =>
      by_cases c1 : preD.operstate.getD "UNKNOWN" ≠ postD.operstate.getD "UNKNOWN" <;>
      by_cases c2 : !sameSet (inetIps preD) (inetIps postD) <;>
      by_cases c3 : preD.address.getD "" ≠ postD.address.getD "" <;>
      simp [c1, c2, c3] <;> omega

theorem critLoop_bound (d : List (String × CritService)) (l : List (String × CritService)) :
    (critLoop d l).1 + (critLoop d l).2.1 ≤ (critLoop d l).2.2.length := by
  induction l with
  | nil => simp [critLoop]
  | cons q rest ih =>
    obtain ⟨svc, postD⟩ := q
    simp only [critLoop]
    split <;> split <;> simp <;> omega

theorem critLoop_self (d : List (String × CritService))
    (h : ∀ p ∈ d, alookup d p.1 = some p.2)
    (hact : ∀ p ∈ d, p.2.active = some "active") :
    ∀ l, (∀ p ∈ l, p ∈ d) → critLoop d l = (0, 0, []) := by
  intro l
  induction l with
  | nil => intro _; rfl
  | cons q rest ih =>
    intro hl
    obtain ⟨svc, postD⟩ := q
    have hmem := hl _ (List.mem_cons_self _ _)
    have hq : alookup d svc = some postD := h (svc, postD) hmem
    have ha : postD.active = some "active" := hact (svc, postD) hmem
    have hrest := ih (fun p hp => hl p (List.mem_cons_of_mem _ hp))
    simp [critLoop, hq, ha, hrest]

theorem configLoop_self (d : List (String × String))
    (h : ∀ p ∈ d, alookup d p.1 = some p.2) :
    ∀ l, (∀ p ∈ l, p ∈ d) → configLoop d l = (0, []) := by
  intro l
  induction l with
  | nil => intro _; rfl
  | cons q rest ih =>
    intro hl
    obtain ⟨file, preH⟩ := q
    have hq : alookup d file = some preH := h (file, preH) (hl _ (List.mem_cons_self _ _))
    have hrest := ih (fun p hp => hl p (List.mem_cons_of_mem _ hp))
    simp [configLoop, hq, hrest]

theorem configLoop_bound (d : List (String × String)) (l : List (String × String)) :
    (configLoop d l).1 ≤ (configLoop d l).2.length := by
  induction l with
  | nil => simp [configLoop]
  | cons q rest ih =>
    obtain ⟨file, preH⟩ := q
    simp only [configLoop]
    split
    · simpa using Nat.add_le_add_right ih 1
    · exact ih

theorem fleetLoop_self (f : FleetSec) : ∀ names, fleetLoop f f names = (0, []) := by
  intro names
  induction names with
  | nil => rfl
  | cons device rest ih =>
    simp only [fleetLoop, ih]
    split
    · next hcond => simp at hcond
    · split
      · next hcond => simp at hcond
      · rfl

theorem fleetLoop_bound (a b : FleetSec) (names : List String) :
    (fleetLoop a b names).1 ≤ (fleetLoop a b names).2.length := by
  induction names with
  | nil => simp [fleetLoop]
  | cons device rest ih =>
    simp only [fleetLoop]
    split
    · simpa using Nat.add_le_add_right ih 1
    · split
      · simpa using Nat.le_succ_of_le ih
      · exact ih

theorem compare_system_problems (a b : Doc) :
    (compare_system a b).problems = if sysDisk b > 90 then 1 else 0 := by
  simp only [compare_system, sysDisk]
  split_ifs <;> simp_all

theorem compare_system_warnings (a b : Doc) :
    (compare_system a b).warnings =
      (if ¬sysDisk b > 90 ∧ sysDisk b > sysDisk a + 10 then 1 else 0)
      + (if effTemp b > 80 then 1 else 0) := by
  simp only [compare_system, sysDisk]
  split_ifs <;> simp_all

theorem compare_system_self (d : Doc) (h1 : sysDisk d ≤ 90) (h2 : effTemp d ≤ 80) :
    compare_system d d = ⟨"system", 0, 0, []⟩ := by
  simp only [compare_system, sysDisk] at *
  split_ifs <;> simp_all <;> omega

theorem compare_system_bound (a b : Doc) :
    (compare_system a b).problems + (compare_system a b).warnings
      ≤ (compare_system a b).changes.length := by
  simp only [compare_system]
  split_ifs <;> simp

theorem compare_services_self (d : Doc) :
    compare_services d d = ⟨"services", 0, 0, []⟩ := by
  simp [compare_services, pySetDiff_self, sortStr]

theorem compare_services_bound (a b : Doc) :
    (compare_services a b).problems + (compare_services a b).warnings
      ≤ (compare_services a b).changes.length := by
  simp [compare_services, sortStr_length]

theorem containersDict_keysNodup (cs : List Container) : keysNodup (containersDict cs) :=
  buildDict_keysNodup _ _

theorem ifaceDict_keysNodup (l : List Iface) : keysNodup (ifaceDict l) :=
  buildDict_keysNodup _ _

theorem nmDict_keysNodup (l : List NMConn) : keysNodup (nmDict l) :=
  buildDict_keysNodup _ _

theorem compare_docker_self (d : Doc) :
    compare_docker d d = ⟨"docker", 0, 0, []⟩ := by
  simp only [compare_docker]
  split
  · rfl
  · have hself := alookup_mem_self _
      (containersDict_keysNodup ((d.docker.getD default).containers.getD []))
    rw [dockerPreLoop_self _ hself _ (fun p hp => hp), pySetDiff_self]
    rfl

theorem compare_docker_bound (a b : Doc) :
    (compare_docker a b).problems + (compare_docker a b).warnings
      ≤ (compare_docker a b).changes.length := by
  simp only [compare_docker]
  split
  · simp
  · simpa using Nat.le_trans (dockerPreLoop_bound _ _) (by simp)

theorem compare_network_interfaces_self (d : Doc) :
    compare_network_interfaces d d = ⟨"network", 0, 0, []⟩ := by
  have hself := alookup_mem_self _
    (ifaceDict_keysNodup ((d.network.getD default).interfaces.getD []))
  simp only [compare_network_interfaces]
  rw [ifaceLoop_self _ hself _ (fun p hp => hp)]
  simp

theorem compare_network_interfaces_bound (a b : Doc) :
    (compare_network_interfaces a b).problems + (compare_network_interfaces a b).warnings
      ≤ (compare_network_interfaces a b).changes.length := by
  simp only [compare_network_interfaces]
  have h := ifaceLoop_bound (ifaceDict ((b.network.getD default).interfaces.getD []))
    (ifaceDict ((a.network.getD default).interfaces.getD []))
  split_ifs <;> simp <;> omega

theorem bootDurRes_fst (bi : BootInfo) :
    (bootDurRes bi).1 = if bootDurWarn bi then 1 else 0 := by
  simp only [bootDurRes, bootDurWarn]
  split
  · rfl
  · split <;> split_ifs <;> simp_all <;> omega

theorem bootDurRes_nowarn (bi : BootInfo) (h : bootDurWarn bi = false) :
    bootDurRes bi = (0, []) := by
  simp only [bootDurWarn] at h
  simp only [bootDurRes]
  split
  · rfl
  · next hne =>
    rw [if_neg hne] at h
    split at h <;> simp_all

theorem compare_usb_devices_self (d : Doc) :
    compare_usb_devices d d = ⟨"usb_devices", 0, 0, []⟩ := by
  simp [compare_usb_devices, pySetDiff_self, sortStr]

theorem compare_usb_devices_bound (a b : Doc) :
    (compare_usb_devices a b).problems + (compare_usb_devices a b).warnings
      ≤ (compare_usb_devices a b).changes.length := by
  simp [compare_usb_devices, sortStr_length]

theorem compare_route_guardian_self (d : Doc) :
    compare_route_guardian d d = ⟨"route_guardian", 0, 0, []⟩ := by
  simp only [compare_route_guardian]
  split
  · rfl
  · simp

theorem compare_route_guardian_bound (a b : Doc) :
    (compare_route_guardian a b).problems + (compare_route_guardian a b).warnings
      ≤ (compare_route_guardian a b).changes.length := by
  simp only [compare_route_guardian]
  split
  · simp
  · split_ifs <;> simp

theorem compare_pi_zero_fleet_self (d : Doc) :
    compare_pi_zero_fleet d d = ⟨"pi_zero_fleet", 0, 0, []⟩ := by
  simp only [compare_pi_zero_fleet]
  split
  · rfl
  · rw [fleetLoop_self]

theorem compare_pi_zero_fleet_bound (a b : Doc) :
    (compare_pi_zero_fleet a b).problems + (compare_pi_zero_fleet a b).warnings
      ≤ (compare_pi_zero_fleet a b).changes.length := by
  simp only [compare_pi_zero_fleet]
  split
  · simp
  · simpa using fleetLoop_bound _ _ _

theorem compare_networkmanager_self (d : Doc) :
    compare_networkmanager d d = ⟨"networkmanager", 0, 0, []⟩ := by
  simp [compare_networkmanager, pySetDiff_self, sortStr]

theorem compare_networkmanager_bound (a b : Doc) :
    (compare_networkmanager a b).problems + (compare_networkmanager a b).warnings
      ≤ (compare_networkmanager a b).changes.length := by
  simp [compare_networkmanager, sortStr_length]

theorem compare_wireguard_self (d : Doc) :
    compare_wireguard d d = ⟨"wireguard", 0, 0, []⟩ := by
  simp only [compare_wireguard]
  split
  · rfl
  · simp

theorem compare_wireguard_bound (a b : Doc) :
    (compare_wireguard a b).problems + (compare_wireguard a b).warnings
      ≤ (compare_wireguard a b).changes.length := by
  simp only [compare_wireguard]
  split
  · simp
  · split_ifs <;> simp

theorem compare_hardware_throttling_self (d : Doc) (h : teWarnFree d = true) :
    compare_hardware_throttling d d = ⟨"hardware_throttling", 0, 0, []⟩ := by
  simp only [teWarnFree, Bool.and_eq_true, Bool.not_eq_true'] at h
  simp only [compare_hardware_throttling]
  split
  · rfl
  · simp [h.1.1, h.1.2, h.2]

theorem compare_hardware_throttling_bound (a b : Doc) :
    (compare_hardware_throttling a b).problems + (compare_hardware_throttling a b).warnings
      ≤ (compare_hardware_throttling a b).changes.length := by
  simp only [compare_hardware_throttling]
  split
  · simp
  · split_ifs <;> simp

theorem compare_critical_services_self (d : Doc)
    (hnd : keysNodup (d.critical_services.getD []))
    (hact : critAllActive d = true) :
    compare_critical_services d d = ⟨"critical_services", 0, 0, []⟩ := by
  simp only [critAllActive, List.all_eq_true, beq_iff_eq] at hact
  simp only [compare_critical_services]
  split
  · rfl
  · rw [critLoop_self _ (alookup_mem_self _ hnd) hact _ (fun p hp => hp)]

theorem compare_critical_services_bound (a b : Doc) :
    (compare_critical_services a b).problems + (compare_critical_services a b).warnings
      ≤ (compare_critical_services a b).changes.length := by
  simp only [compare_critical_services]
  split
  · simp
  · exact critLoop_bound _ _

theorem compare_config_checksums_self (d : Doc)
    (hnd : keysNodup (d.config_checksums.getD [])) :
    compare_config_checksums d d = ⟨"config_checksums", 0, 0, []⟩ := by
  simp only [compare_config_checksums]
  rw [configLoop_self _ (alookup_mem_self _ hnd) _ (fun p hp => hp)]

theorem compare_config_checksums_bound (a b : Doc) :
    (compare_config_checksums a b).problems + (compare_config_checksums a b).warnings
      ≤ (compare_config_checksums a b).changes.length := by
  simpa [compare_config_checksums] using configLoop_bound _ _

theorem compare_memory_detail_self (d : Doc) (h : swapOf d ≤ 50) :
    compare_memory_detail d d = ⟨"memory_detail", 0, 0, []⟩ := by
  simp only [compare_memory_detail]
  rw [if_neg (by omega)]

theorem compare_memory_detail_bound (a b : Doc) :
    (compare_memory_detail a b).problems + (compare_memory_detail a b).warnings
      ≤ (compare_memory_detail a b).changes.length := by
  simp only [compare_memory_detail]
  split <;> simp

theorem compare_cron_jobs_self (d : Doc) :
    compare_cron_jobs d d = ⟨"cron_jobs", 0, 0, []⟩ := by
  simp [compare_cron_jobs, pySetDiff_self, sortStr]

theorem compare_cron_jobs_bound (a b : Doc) :
    (compare_cron_jobs a b).problems + (compare_cron_jobs a b).warnings
      ≤ (compare_cron_jobs a b).changes.length := by
  simp [compare_cron_jobs, sortStr_length]

theorem validate_boot_info_self (post : Doc) (h : bootOk post = true) :
    validate_boot_info post = ⟨"boot_info", 0, 0, []⟩ := by
  cases hb : post.boot_info with
  | none => simp [validate_boot_info, hb]
  | some bi =>
    simp only [bootOk, hb, Bool.or_eq_true, beq_iff_eq, Bool.and_eq_true,
      Bool.not_eq_true', decide_eq_false_iff_not, Not] at h
    simp only [validate_boot_info, hb]
    rcases h with hav | ⟨hph, hdw⟩
    · simp [hav]
    · by_cases hava : bi.available.getD true
      · simp only [hava, Bool.not_true, Bool.false_eq_true, if_false]
        rw [if_neg hph, bootDurRes_nowarn bi hdw]
        rfl
      · simp [hava]

theorem bootDurRes_bound (bi : BootInfo) :
    (bootDurRes bi).1 ≤ (bootDurRes bi).2.length := by
  simp only [bootDurRes]
  split
  · simp
  · split <;> (try split_ifs) <;> simp

theorem validate_boot_info_bound (post : Doc) :
    (validate_boot_info post).problems + (validate_boot_info post).warnings
      ≤ (validate_boot_info post).changes.length := by
  cases hb : post.boot_info with
  | none => simp [validate_boot_info, hb]
  | some bi =>
    simp only [validate_boot_info, hb]
    have hdb := bootDurRes_bound bi
    split
    · simp
    · split_ifs <;> simp <;> omega

theorem compare_system_section (a b : Doc) :
    (compare_system a b).sectionName = "system" := rfl

theorem compare_services_section (a b : Doc) :
    (compare_services a b).sectionName = "services" := rfl

theorem compare_docker_section (a b : Doc) :
    (compare_docker a b).sectionName = "docker" := by
  simp only [compare_docker]; split <;> rfl

theorem compare_network_interfaces_section (a b : Doc) :
    (compare_network_interfaces a b).sectionName = "network" := rfl

theorem compare_usb_devices_section (a b : Doc) :
    (compare_usb_devices a b).sectionName = "usb_devices" := rfl

theorem compare_route_guardian_section (a b : Doc) :
    (compare_route_guardian a b).sectionName = "route_guardian" := by
  simp only [compare_route_guardian]; split <;> rfl

theorem compare_pi_zero_fleet_section (a b : Doc) :
    (compare_pi_zero_fleet a b).sectionName = "pi_zero_fleet" := by
  simp only [compare_pi_zero_fleet]; split <;> rfl

theorem compare_networkmanager_section (a b : Doc) :
    (compare_networkmanager a b).sectionName = "networkmanager" := rfl

theorem compare_wireguard_section (a b : Doc) :
    (compare_wireguard a b).sectionName = "wireguard" := by
  simp only [compare_wireguard]; split <;> rfl

theorem compare_hardware_throttling_section (a b : Doc) :
    (compare_hardware_throttling a b).sectionName = "hardware_throttling" := by
  simp only [compare_hardware_throttling]; split <;> rfl

theorem compare_critical_services_section (a b : Doc) :
    (compare_critical_services a b).sectionName = "critical_services" := by
  simp only [compare_critical_services]; split <;> rfl

theorem compare_config_checksums_section (a b : Doc) :
    (compare_config_checksums a b).sectionName = "config_checksums" := rfl

theorem compare_memory_detail_section (a b : Doc) :
    (compare_memory_detail a b).sectionName = "memory_detail" := by
  simp only [compare_memory_detail]; split <;> rfl

theorem compare_cron_jobs_section (a b : Doc) :
    (compare_cron_jobs a b).sectionName = "cron_jobs" := rfl

theorem validate_boot_info_section (post : Doc) :
    (validate_boot_info post).sectionName = "boot_info" := by
  simp only [validate_boot_info]
  split
  · rfl
  · split <;> rfl

theorem validate_boot_info_char (post : Doc) (bi : BootInfo)
    (h : post.boot_info = some bi) (ha : bi.available ≠ some false) :
    (validate_boot_info post).problems = (if bi.phases_completed.getD 0 < 13 then 1 else 0)
      ∧ (validate_boot_info post).warnings = (if bootDurWarn bi then 1 else 0) := by
  have hav : bi.available.getD true = true := by
    cases h2 : bi.available with
    | none => rfl
    | some b => cases b with
      | false => exact absurd h2 ha
      | true => rfl
  simp only [validate_boot_info, h, hav, Bool.not_true, Bool.false_eq_true, if_false]
  refine ⟨?_, bootDurRes_fst bi⟩
  split_ifs <;> rfl

/-- C3: disk-usage severity uses strict thresholds: post disk > 90 is the
only source of a system problem (so 90 → none, 91 → one), and the
significant-increase warning needs post > pre + 10 (so 50→60 none,
50→61 one); the general characterizations plus the four boundary cases. -/
theorem C3_disk_thresholds :
    (∀ a b : Doc, (compare_system a b).problems = if sysDisk b > 90 then 1 else 0)
    ∧ (∀ a b : Doc, (compare_system a b).warnings =
        (if ¬sysDisk b > 90 ∧ sysDisk b > sysDisk a + 10 then 1 else 0)
        + (if effTemp b > 80 then 1 else 0))
    ∧ (compare_system (mkDiskDoc 50) (mkDiskDoc 90)).problems = 0
    ∧ (compare_system (mkDiskDoc 50) (mkDiskDoc 91)).problems = 1
    ∧ (compare_system (mkDiskDoc 50) (mkDiskDoc 60)).warnings = 0
    ∧ (compare_system (mkDiskDoc 50) (mkDiskDoc 61)).warnings = 1 := by
  refine ⟨compare_system_problems, compare_system_warnings, ?_, ?_, ?_, ?_⟩ <;> decide

/-- C9: the system comparator raises at most one disk finding: post disk
above 90 yields the critical problem and suppresses the increase warning
(warnings can then only come from temperature), and no disk problem exists
at or below 90; concretely pre 50 → post 95 gives one problem, no warning
despite a 45-point increase. -/
theorem C9_disk_finding_exclusive :
    (∀ a b : Doc, sysDisk b > 90 →
        (compare_system a b).problems = 1
        ∧ (compare_system a b).warnings = (if effTemp b > 80 then 1 else 0))
    ∧ (∀ a b : Doc, sysDisk b ≤ 90 → (compare_system a b).problems = 0)
    ∧ compare_system (mkDiskDoc 50) (mkDiskDoc 95)
        = ⟨"system", 1, 0, ["Disk space critical: 95% used"]⟩ := by
  refine ⟨?_, ?_, by decide⟩
  · intro a b h
    refine ⟨?_, ?_⟩
    · rw [compare_system_problems, if_pos h]
    · rw [compare_system_warnings, if_neg (by omega), Nat.zero_add]
  · intro a b h
    rw [compare_system_problems, if_neg (by omega)]

/-- C9 witness: at pre disk 50, post disk 95 the hypothesis holds and the
comparator reports exactly one problem. -/
theorem C9_disk_finding_exclusive_witness :
    sysDisk (mkDiskDoc 95) > 90
    ∧ (compare_system (mkDiskDoc 50) (mkDiskDoc 95)).problems = 1 :=
  ⟨by decide, (C9_disk_finding_exclusive.1 (mkDiskDoc 50) (mkDiskDoc 95) (by decide)).1⟩

/-- C6: the services comparator counts one problem per distinct running
service lost and one per newly failed service after the "●" marker is
stripped, never warns, and records started services as informational; the
{A,B,C} → {B,C,D} scenario gives one problem, changes ["stopped: A",
"started: D"], zero warnings, and a post-failed set {●, X} against an
empty pre-failed set counts only X. -/
theorem C6_services_sets :
    (∀ a b : Doc, (compare_services a b).warnings = 0)
    ∧ (∀ a b : Doc, (compare_services a b).problems =
        (pySetDiff (pySet ((a.services.getD default).running.getD []))
            (pySet ((b.services.getD default).running.getD []))).length
        + (pySetDiff
            ((pySet ((b.services.getD default).failed.getD [])).filter
              (fun s => decide (s ≠ "●")))
            ((pySet ((a.services.getD default).failed.getD [])).filter
              (fun s => decide (s ≠ "●")))).length)
    ∧ compare_services svcPreDoc svcPostDoc
        = ⟨"services", 1, 0, ["stopped: A", "started: D"]⟩
    ∧ (compare_services tsDoc failBulletDoc).problems = 1
    ∧ (compare_services tsDoc failBulletDoc).changes = ["failed: X"] := by
  exact ⟨fun a b => rfl, fun a b => rfl, by decide, by decide, by decide⟩

/-- C7: relative to the summary buckets of `print_summary`, every section
result is critical iff it has problems, warning iff no problems but
warnings, info iff silent but with changes; the buckets are pairwise
disjoint and a result with no severity and no changes is in none. -/
theorem C7_summary_buckets :
    ∀ (results : List ComparisonResult) (r : ComparisonResult), r ∈ results →
      ((r ∈ summaryCritical results ↔ 0 < r.problems)
      ∧ (r ∈ summaryWarning results ↔ 0 < r.warnings ∧ r.problems = 0)
      ∧ (r ∈ summaryInfo results ↔ 0 < r.changes.length ∧ r.problems = 0 ∧ r.warnings = 0)
      ∧ ¬(r ∈ summaryCritical results ∧ r ∈ summaryWarning results)
      ∧ ¬(r ∈ summaryCritical results ∧ r ∈ summaryInfo results)
      ∧ ¬(r ∈ summaryWarning results ∧ r ∈ summaryInfo results)
      ∧ (r.problems = 0 → r.warnings = 0 → r.changes = [] →
          r ∉ summaryCritical results ∧ r ∉ summaryWarning results
            ∧ r ∉ summaryInfo results)) := by
  intro results r hr
  have hc : r ∈ summaryCritical results ↔ 0 < r.problems := by
    simp [summaryCritical, List.mem_filter, hr]
  have hw : r ∈ summaryWarning results ↔ 0 < r.warnings ∧ r.problems = 0 := by
    simp [summaryWarning, List.mem_filter, hr]
  have hi : r ∈ summaryInfo results
      ↔ 0 < r.changes.length ∧ r.problems = 0 ∧ r.warnings = 0 := by
    simp [summaryInfo, List.mem_filter, hr, and_assoc]
  refine ⟨hc, hw, hi, ?_, ?_, ?_, ?_⟩
  · rintro ⟨h1, h2⟩
    rw [hc] at h1
    rw [hw] at h2
    omega
  · rintro ⟨h1, h2⟩
    rw [hc] at h1
    rw [hi] at h2
    omega
  · rintro ⟨h1, h2⟩
    rw [hw] at h1
    rw [hi] at h2
    omega
  · intro hp hwz hch
    refine ⟨?_, ?_, ?_⟩ <;> intro hmem
    · rw [hc] at hmem
      omega
    · rw [hw] at hmem
      omega
    · rw [hi] at hmem
      rw [hch] at hmem
      simp at hmem

/-- C7 witness: a concrete one-problem result lands in the critical bucket
of a concrete result list. -/
theorem C7_summary_buckets_witness :
    (⟨"system", 1, 0, ["x"]⟩ : ComparisonResult)
      ∈ summaryCritical [⟨"system", 1, 0, ["x"]⟩] :=
  ((C7_summary_buckets [⟨"system", 1, 0, ["x"]⟩] ⟨"system", 1, 0, ["x"]⟩
      (by decide)).1).mpr (by decide)

/-- C8: every comparator in the pipeline returns a result whose problem and
warning counts together never exceed the number of recorded changes: each
severity increment appends at least one change entry, and boot validation
satisfies the same bound on every post document. -/
theorem C8_severity_change_bound :
    (∀ (a b : Doc), ∀ r ∈ runComparisons a b,
        r.problems + r.warnings ≤ r.changes.length)
    ∧ (∀ post : Doc,
        (validate_boot_info post).problems + (validate_boot_info post).warnings
          ≤ (validate_boot_info post).changes.length) := by
  refine ⟨?_, validate_boot_info_bound⟩
  intro a b r hr
  by_cases ht : b.type = some "post-reboot" <;>
    simp only [runComparisons, ht, if_pos, if_neg, not_false_iff, List.append_nil,
      List.mem_append, List.mem_cons, List.mem_singleton, List.not_mem_nil, or_false,
      if_true, reduceIte] at hr
  · rcases hr with (rfl | rfl | rfl | rfl | rfl | rfl | rfl | rfl | rfl | rfl | rfl |
      rfl | rfl | rfl) | rfl
    · exact compare_system_bound a b
    · exact compare_services_bound a b
    · exact compare_docker_bound a b
    · exact compare_network_interfaces_bound a b
    · exact compare_usb_devices_bound a b
    · exact compare_route_guardian_bound a b
    · exact compare_pi_zero_fleet_bound a b
    · exact compare_networkmanager_bound a b
    · exact compare_wireguard_bound a b
    · exact compare_hardware_throttling_bound a b
    · exact compare_critical_services_bound a b
    · exact compare_config_checksums_bound a b
    · exact compare_memory_detail_bound a b
    · exact compare_cron_jobs_bound a b
    · exact validate_boot_info_bound b
  · rcases hr with rfl | rfl | rfl | rfl | rfl | rfl | rfl | rfl | rfl | rfl | rfl |
      rfl | rfl | rfl
    · exact compare_system_bound a b
    · exact compare_services_bound a b
    · exact compare_docker_bound a b
    · exact compare_network_interfaces_bound a b
    · exact compare_usb_devices_bound a b
    · exact compare_route_guardian_bound a b
    · exact compare_pi_zero_fleet_bound a b
    · exact compare_networkmanager_bound a b
    · exact compare_wireguard_bound a b
    · exact compare_hardware_throttling_bound a b
    · exact compare_critical_services_bound a b
    · exact compare_config_checksums_bound a b
    · exact compare_memory_detail_bound a b
    · exact compare_cron_jobs_bound a b

/-- C8 witness: the bound instantiated for the system comparator on a
concrete timestamp-only document. -/
theorem C8_severity_change_bound_witness :
    compare_system tsDoc tsDoc ∈ runComparisons tsDoc tsDoc
    ∧ (compare_system tsDoc tsDoc).problems + (compare_system tsDoc tsDoc).warnings
        ≤ (compare_system tsDoc tsDoc).changes.length :=
  ⟨by simp [runComparisons],
    C8_severity_change_bound.1 tsDoc tsDoc _ (by simp [runComparisons])⟩

/-- C1 counterexample: a document whose disk usage is 95% compared against
an identical copy of itself yields one problem from the system comparator,
refuting "every comparator returns zero problems for identical pairs". -/
theorem C1_identical_counterexample :
    (compare_system (mkDiskDoc 95) (mkDiskDoc 95)).problems = 1 := by decide

/-- C1 (amended): for a document compared against an identical copy, every
comparator in the pipeline returns zero problems and zero warnings,
provided the shared document itself stays below the absolute post-snapshot
thresholds (disk ≤ 90, effective CPU temperature ≤ 80, swap ≤ 50, no
throttle flags, all critical services "active", boot info silent) —
difference-based checks can never fire on identical input. -/
theorem C1_identical_zero (d : Doc)
    (h1 : sysDisk d ≤ 90) (h2 : effTemp d ≤ 80) (h3 : swapOf d ≤ 50)
    (h4 : teWarnFree d = true) (h5 : critAllActive d = true)
    (h6 : keysNodup (d.critical_services.getD []))
    (h7 : keysNodup (d.config_checksums.getD []))
    (h8 : bootOk d = true) :
    ∀ r ∈ runComparisons d d, r.problems = 0 ∧ r.warnings = 0 := by
  intro r hr
  by_cases ht : d.type = some "post-reboot" <;>
    simp only [runComparisons, ht, List.append_nil, List.mem_append, List.mem_cons,
      List.mem_singleton, List.not_mem_nil, or_false, reduceIte] at hr
  · rcases hr with (rfl | rfl | rfl | rfl | rfl | rfl | rfl | rfl | rfl | rfl | rfl |
      rfl | rfl | rfl) | rfl
    · rw [compare_system_self d h1 h2]; exact ⟨rfl, rfl⟩
    · rw [compare_services_self d]; exact ⟨rfl, rfl⟩
    · rw [compare_docker_self d]; exact ⟨rfl, rfl⟩
    · rw [compare_network_interfaces_self d]; exact ⟨rfl, rfl⟩
    · rw [compare_usb_devices_self d]; exact ⟨rfl, rfl⟩
    · rw [compare_route_guardian_self d]; exact ⟨rfl, rfl⟩
    · rw [compare_pi_zero_fleet_self d]; exact ⟨rfl, rfl⟩
    · rw [compare_networkmanager_self d]; exact ⟨rfl, rfl⟩
    · rw [compare_wireguard_self d]; exact ⟨rfl, rfl⟩
    · rw [compare_hardware_throttling_self d h4]; exact ⟨rfl, rfl⟩
    · rw [compare_critical_services_self d h6 h5]; exact ⟨rfl, rfl⟩
    · rw [compare_config_checksums_self d h7]; exact ⟨rfl, rfl⟩
    · rw [compare_memory_detail_self d h3]; exact ⟨rfl, rfl⟩
    · rw [compare_cron_jobs_self d]; exact ⟨rfl, rfl⟩
    · rw [validate_boot_info_self d h8]; exact ⟨rfl, rfl⟩
  · rcases hr with rfl | rfl | rfl | rfl | rfl | rfl | rfl | rfl | rfl | rfl | rfl |
      rfl | rfl | rfl
    · rw [compare_system_self d h1 h2]; exact ⟨rfl, rfl⟩
    · rw [compare_services_self d]; exact ⟨rfl, rfl⟩
    · rw [compare_docker_self d]; exact ⟨rfl, rfl⟩
    · rw [compare_network_interfaces_self d]; exact ⟨rfl, rfl⟩
    · rw [compare_usb_devices_self d]; exact ⟨rfl, rfl⟩
    · rw [compare_route_guardian_self d]; exact ⟨rfl, rfl⟩
    · rw [compare_pi_zero_fleet_self d]; exact ⟨rfl, rfl⟩
    · rw [compare_networkmanager_self d]; exact ⟨rfl, rfl⟩
    · rw [compare_wireguard_self d]; exact ⟨rfl, rfl⟩
    · rw [compare_hardware_throttling_self d h4]; exact ⟨rfl, rfl⟩
    · rw [compare_critical_services_self d h6 h5]; exact ⟨rfl, rfl⟩
    · rw [compare_config_checksums_self d h7]; exact ⟨rfl, rfl⟩
    · rw [compare_memory_detail_self d h3]; exact ⟨rfl, rfl⟩
    · rw [compare_cron_jobs_self d]; exact ⟨rfl, rfl⟩

/-- C1 witness: the amended statement instantiated on a concrete healthy
document and the system comparator's result. -/
theorem C1_identical_zero_witness :
    sysDisk tsDoc ≤ 90
    ∧ ((compare_system tsDoc tsDoc).problems = 0
        ∧ (compare_system tsDoc tsDoc).warnings = 0) :=
  ⟨by decide,
    C1_identical_zero tsDoc (by decide) (by decide) (by decide) (by decide) (by decide)
      (by decide) (by decide) (by decide) _ (by simp [runComparisons])⟩

/-- C2: boot validation appears in the pipeline exactly for post documents
typed "post-reboot"; it returns the zero result when the boot-info section
is absent or marked unavailable; otherwise its problem count is 1 exactly
when fewer than 13 phases completed and its warning count 1 exactly when a
numeric duration exceeds 300 (an unparsable string is silently skipped);
phases 13 with duration 301 give zero problems and one warning, and phases
12 give one problem for every duration. -/
theorem C2_boot_validation :
    (∀ a b : Doc, b.type ≠ some "post-reboot" →
        ∀ r ∈ runComparisons a b, r.sectionName ≠ "boot_info")
    ∧ (∀ a b : Doc, b.type = some "post-reboot" →
        validate_boot_info b ∈ runComparisons a b)
    ∧ (∀ b : Doc, b.boot_info = none →
        validate_boot_info b = ⟨"boot_info", 0, 0, []⟩)
    ∧ (∀ (b : Doc) (bi : BootInfo), b.boot_info = some bi →
        bi.available = some false → validate_boot_info b = ⟨"boot_info", 0, 0, []⟩)
    ∧ (∀ (b : Doc) (bi : BootInfo), b.boot_info = some bi →
        bi.available ≠ some false →
        (validate_boot_info b).problems
            = (if bi.phases_completed.getD 0 < 13 then 1 else 0)
        ∧ (validate_boot_info b).warnings = (if bootDurWarn bi then 1 else 0))
    ∧ (∀ (b : Doc) (bi : BootInfo) (s : String), b.boot_info = some bi →
        bi.available ≠ some false → bi.boot_duration_seconds = some (.str s) →
        s.toInt? = none → (validate_boot_info b).warnings = 0)
    ∧ validate_boot_info (mkBootDoc (some 13) (some (.int 301)))
        = ⟨"boot_info", 0, 1, ["Boot duration long: 301s (>5m)"]⟩
    ∧ (∀ dur : Option PyVal,
        (validate_boot_info (mkBootDoc (some 12) dur)).problems = 1) := by
  refine ⟨?_, ?_, ?_, ?_, validate_boot_info_char, ?_, by decide, ?_⟩
  · intro a b hb r hr
    simp only [runComparisons, hb, List.append_nil, List.mem_append, List.mem_cons,
      List.mem_singleton, List.not_mem_nil, or_false, reduceIte] at hr
    rcases hr with rfl | rfl | rfl | rfl | rfl | rfl | rfl | rfl | rfl | rfl | rfl |
      rfl | rfl | rfl
    · rw [compare_system_section]; decide
    · rw [compare_services_section]; decide
    · rw [compare_docker_section]; decide
    · rw [compare_network_interfaces_section]; decide
    · rw [compare_usb_devices_section]; decide
    · rw [compare_route_guardian_section]; decide
    · rw [compare_pi_zero_fleet_section]; decide
    · rw [compare_networkmanager_section]; decide
    · rw [compare_wireguard_section]; decide
    · rw [compare_hardware_throttling_section]; decide
    · rw [compare_critical_services_section]; decide
    · rw [compare_config_checksums_section]; decide
    · rw [compare_memory_detail_section]; decide
    · rw [compare_cron_jobs_section]; decide
  · intro a b ht
    simp [runComparisons, ht]
  · intro b h
    simp [validate_boot_info, h]
  · intro b bi h ha
    simp [validate_boot_info, h, ha]
  · intro b bi s h ha hd hs
    rw [(validate_boot_info_char b bi h ha).2]
    have hw : bootDurWarn bi = false := by
      simp only [bootDurWarn, hd, Option.getD_some]
      split
      · rfl
      · simp [pyToInt, hs]
    simp [hw]
  · intro dur
    have h := (validate_boot_info_char (mkBootDoc (some 12) dur)
      { available := some true, phases_completed := some 12,
        boot_duration_seconds := dur } rfl (by simp)).1
    simpa using h

/-- C2 witness: the skip case instantiated on a document with no boot-info
section. -/
theorem C2_boot_validation_witness :
    tsDoc.boot_info = none ∧ validate_boot_info tsDoc = ⟨"boot_info", 0, 0, []⟩ :=
  ⟨rfl, C2_boot_validation.2.2.1 tsDoc rfl⟩

/-- C4 counterexample: a failed document load exits with status 1 — the
same value the comparison verdict uses for a run with problems (second
conjunct) — so load failure is not reported via a separate usage-error
status; a clean run exits 0 (third conjunct). -/
theorem C4_exit_status_counterexample :
    (mainModel none (some tsDoc)).1 = 1
    ∧ (mainModel (some (mkDiskDoc 95)) (some (mkDiskDoc 95))).1 = 1
    ∧ (mainModel (some tsDoc) (some tsDoc)).1 = 0 := by
  refine ⟨rfl, by decide, by decide⟩

/-- C4 (amended): with both documents loaded and truthy, the exit status is
0 exactly when the summed problem count is 0, and the full result list is
produced; when either load fails the run aborts with status 1 — not the
separate usage-error status 2, which is reserved for discovery/argument
failures — and no results are produced. -/
theorem C4_exit_status (pre post : Doc)
    (hp : docEmptyPy pre = false) (hq : docEmptyPy post = false) :
    ((mainModel (some pre) (some post)).1 = 0
        ↔ totalProblems (runComparisons pre post) = 0)
    ∧ (mainModel (some pre) (some post)).2 = some (runComparisons pre post)
    ∧ (∀ q : Option Doc, mainModel none q = (1, none))
    ∧ (∀ p : Option Doc, mainModel p none = (1, none)) := by
  refine ⟨?_, ?_, ?_, ?_⟩
  · simp only [mainModel, hp, hq, Bool.or_self, Bool.false_eq_true, if_false]
    split_ifs with h <;> simp [h]
  · simp [mainModel, hp, hq]
  · intro q
    cases q <;> rfl
  · intro p
    cases p <;> rfl

/-- C4 witness: the amended statement instantiated on a timestamp-only
document pair, which loads, is truthy, and exits 0. -/
theorem C4_exit_status_witness :
    docEmptyPy tsDoc = false ∧ (mainModel (some tsDoc) (some tsDoc)).1 = 0 :=
  ⟨rfl, (C4_exit_status tsDoc tsDoc rfl rfl).1.mpr (by decide)⟩

/-- C5 counterexample: with the "system" key absent from both documents the
system comparator still warns, because it falls back to the post document's
"custom" section for the CPU temperature — refuting "zero problems and
zero warnings whenever the comparator's top-level section key is absent
from both documents". -/
theorem C5_absent_section_counterexample :
    tsDoc.system = none ∧ customTempDoc.system = none
    ∧ (compare_system tsDoc customTempDoc).warnings = 1 :=
  ⟨rfl, rfl, by decide⟩

/-- C5 (amended): on the typed document model every comparator is a total
function; absent fields resolve to their per-field defaults, and whenever
every top-level key a comparator reads — its section key, plus the custom
fallback key for the system comparator — is absent from both documents,
it returns zero problems, zero warnings and no changes. -/
theorem C5_absent_sections :
    (∀ a b : Doc, a.system = none → b.system = none → b.custom = none →
        compare_system a b = ⟨"system", 0, 0, []⟩)
    ∧ (∀ a b : Doc, a.services = none → b.services = none →
        compare_services a b = ⟨"services", 0, 0, []⟩)
    ∧ (∀ a b : Doc, a.docker = none → b.docker = none →
        compare_docker a b = ⟨"docker", 0, 0, []⟩)
    ∧ (∀ a b : Doc, a.network = none → b.network = none →
        compare_network_interfaces a b = ⟨"network", 0, 0, []⟩)
    ∧ (∀ a b : Doc, a.usb_devices = none → b.usb_devices = none →
        compare_usb_devices a b = ⟨"usb_devices", 0, 0, []⟩)
    ∧ (∀ a b : Doc, a.route_guardian = none → b.route_guardian = none →
        compare_route_guardian a b = ⟨"route_guardian", 0, 0, []⟩)
    ∧ (∀ a b : Doc, a.pi_zero_fleet = none → b.pi_zero_fleet = none →
        compare_pi_zero_fleet a b = ⟨"pi_zero_fleet", 0, 0, []⟩)
    ∧ (∀ a b : Doc, a.networkmanager = none → b.networkmanager = none →
        compare_networkmanager a b = ⟨"networkmanager", 0, 0, []⟩)
    ∧ (∀ a b : Doc, a.wireguard = none → b.wireguard = none →
        compare_wireguard a b = ⟨"wireguard", 0, 0, []⟩)
    ∧ (∀ a b : Doc, a.hardware = none → b.hardware = none →
        compare_hardware_throttling a b = ⟨"hardware_throttling", 0, 0, []⟩)
    ∧ (∀ a b : Doc, a.critical_services = none → b.critical_services = none →
        compare_critical_services a b = ⟨"critical_services", 0, 0, []⟩)
    ∧ (∀ a b : Doc, a.config_checksums = none → b.config_checksums = none →
        compare_config_checksums a b = ⟨"config_checksums", 0, 0, []⟩)
    ∧ (∀ a b : Doc, a.memory_detail = none → b.memory_detail = none →
        compare_memory_detail a b = ⟨"memory_detail", 0, 0, []⟩)
    ∧ (∀ a b : Doc, a.cron_jobs = none → b.cron_jobs = none →
        compare_cron_jobs a b = ⟨"cron_jobs", 0, 0, []⟩)
    ∧ (∀ b : Doc, b.boot_info = none →
        validate_boot_info b = ⟨"boot_info", 0, 0, []⟩) := by
  refine ⟨?_, ?_, ?_, ?_, ?_, ?_, ?_, ?_, ?_, ?_, ?_, ?_, ?_, ?_, ?_⟩
  · intro a b h1 h2 h3
    simp only [compare_system, effTemp, h1, h2, h3]
    decide
  · intro a b h1 h2
    simp only [compare_services, h1, h2]
    decide
  · intro a b h1 h2
    simp only [compare_docker, h1, h2]
    decide
  · intro a b h1 h2
    simp only [compare_network_interfaces, h1, h2]
    decide
  · intro a b h1 h2
    simp only [compare_usb_devices, h1, h2]
    decide
  · intro a b h1 h2
    simp only [compare_route_guardian, h1, h2]
    decide
  · intro a b h1 h2
    simp only [compare_pi_zero_fleet, h1, h2]
    decide
  · intro a b h1 h2
    simp only [compare_networkmanager, h1, h2]
    decide
  · intro a b h1 h2
    simp only [compare_wireguard, h1, h2]
    decide
  · intro a b h1 h2
    simp only [compare_hardware_throttling, h1, h2]
    decide
  · intro a b h1 h2
    simp only [compare_critical_services, h1, h2]
    decide
  · intro a b h1 h2
    simp only [compare_config_checksums, h1, h2]
    decide
  · intro a b h1 h2
    simp only [compare_memory_detail, swapOf, h1, h2]
    decide
  · intro a b h1 h2
    simp only [compare_cron_jobs, h1, h2]
    decide
  · intro b h
    simp [validate_boot_info, h]

/-- C5 witness: the system conjunct instantiated on two documents with no
system and no custom section. -/
theorem C5_absent_sections_witness :
    tsDoc.system = none ∧ compare_system tsDoc tsDoc = ⟨"system", 0, 0, []⟩ :=
  ⟨rfl, C5_absent_sections.1 tsDoc tsDoc rfl rfl rfl⟩

/-- C10: a present boot-info section that does not set `available` to
false is validated: a missing `available` flag behaves exactly like an
explicit true, and a missing `phases_completed` defaults to 0 and raises
the incomplete-boot problem; an empty boot-info object yields exactly one
problem with the 0/13 message. -/
theorem C10_boot_defaults :
    (∀ (b : Doc) (bi : BootInfo), b.boot_info = some bi → bi.available = none →
        validate_boot_info b
          = validate_boot_info
              { b with boot_info := some { bi with available := some true } })
    ∧ (∀ (b : Doc) (bi : BootInfo), b.boot_info = some bi →
        bi.available ≠ some false → bi.phases_completed = none →
        (validate_boot_info b).problems = 1)
    ∧ validate_boot_info emptyBootDoc
        = ⟨"boot_info", 1, 0, ["Incomplete boot: Only 0/13 phases completed"]⟩ := by
  refine ⟨?_, ?_, by decide⟩
  · intro b bi h ha
    have hd : bootDurRes { bi with available := some true } = bootDurRes bi := by
      simp [bootDurRes]
    simp [validate_boot_info, h, ha, hd]
  · intro b bi h ha hp
    rw [(validate_boot_info_char b bi h ha).1, hp]
    simp

/-- C10 witness: the defaulting conjunct instantiated on the empty
boot-info document. -/
theorem C10_boot_defaults_witness :
    emptyBootDoc.boot_info = some {} ∧ (validate_boot_info emptyBootDoc).problems = 1 :=
  ⟨rfl, C10_boot_defaults.2.1 emptyBootDoc {} rfl (by simp) rfl⟩
